import Mathlib

/-!
Shallow embedding of the MCP study client (`Client` class and its helpers):
the JSON-RPC data model, the pending-call registry (`_responseHandlers`,
a `Map<number, callback>` modelled as an association list), and the
operations `connect`, `handleServerOutput`, `request`, `notification`,
`initialize`, `listTools`, `disconnect`, plus the `close`-event handler
installed by `connect`.

Asynchronous control flow is modelled by splitting each `await` point:
`connectStart` performs everything `connect`/`initialize` do up to and
including sending the `initialize` request; `connectFinish` is the
resumption that runs when the stored response callback fires.  Every
operation returns the successor client state together with the list of
externally observable actions it performs (frames written to the child
process stdin, continuation invocations, process kills).  `JSON.parse`
is an external runtime facility and is passed in as an oracle
`parse : String → Option JsonRpcResponse`; a parse failure (exception,
caught and logged by the source) is `none`.
-/

namespace Mcp

/-- A JSON value, as produced by the JavaScript runtime's JSON facilities. -/
inductive Json where
  | null : Json
  | bool (b : Bool) : Json
  | num (n : Int) : Json
  | str (s : String) : Json
  | arr (elems : List Json) : Json
  | obj (fields : List (String × Json)) : Json

/-- The `error` member of a `JsonRpcResponse` (`{code, message, data?}`). -/
structure JsonRpcError where
  code : Int
  message : String
  data : Option Json

/-- `JsonRpcResponse` from the source.  The TypeScript annotation declares
`id: number`, but the value comes from an unchecked `as JsonRpcResponse`
cast of `JSON.parse` output, so at runtime `id` may be absent (`none`) and
`result`/`error` are optional members. -/
structure JsonRpcResponse where
  jsonrpc : String
  id : Option Int
  result : Option Json
  error : Option JsonRpcError

/-- `JsonRpcRequest` from the source: always built with a fresh numeric id. -/
structure JsonRpcRequest where
  jsonrpc : String
  id : Int
  method : String
  params : Json

/-- `JsonRpcNotification` from the source: no `id` member at all. -/
structure JsonRpcNotification where
  jsonrpc : String
  method : String
  params : Option Json

/-- Outcome of invoking a stored response callback: the callback built by
`request` either resolves its promise with `response.result` or rejects it
with a composed error message. -/
inductive HandlerOutcome where
  | resolve (result : Option Json) : HandlerOutcome
  | reject (message : String) : HandlerOutcome

/-- A continuation stored in `_responseHandlers`. -/
abbrev Handler := JsonRpcResponse → HandlerOutcome

/-- A frame written to the subprocess stdin (`JSON.stringify(x) + "\n"`).
Which of the two shapes is serialized is kept explicit; a notification
frame carries no id by construction, exactly as in the source types. -/
inductive Frame where
  | request (r : JsonRpcRequest) : Frame
  | notification (n : JsonRpcNotification) : Frame

/-- An externally observable effect of a client operation. -/
inductive Action where
  | write (f : Frame) : Action
  | invoke (id : Int) (outcome : HandlerOutcome) : Action
  | kill (proc : Nat) : Action

end Mcp

namespace Mcp

/-- The mutable fields of the `Client` class.  `serverProcess` is an opaque
handle (`null` is `none`); `_responseHandlers` is the `Map<number, cb>`
as an association list in insertion order. -/
structure ClientState where
  serverProcess : Option Nat
  nextRequestId : Int
  responseHandlers : List (Int × Handler)
  isConnected : Bool

/-- A freshly constructed `Client`: `serverProcess = null`,
`nextRequestId = 1`, empty handler map, `isConnected = false`. -/
def initialClient : ClientState :=
  { serverProcess := none, nextRequestId := 1, responseHandlers := [], isConnected := false }

/-- Strip leading and trailing whitespace from a character list. -/
def trimChars (cs : List Char) : List Char :=
  ((cs.dropWhile Char.isWhitespace).reverse.dropWhile Char.isWhitespace).reverse

/-- JavaScript `String.prototype.trim` (as used on `data.toString()`). -/
def jsTrim (s : String) : String := ⟨trimChars s.data⟩

/-- JavaScript `String.prototype.startsWith`. -/
def jsStartsWith (s pre : String) : Bool := pre.data.isPrefixOf s.data

/-- JavaScript `String.prototype.endsWith`. -/
def jsEndsWith (s suf : String) : Bool := suf.data.reverse.isPrefixOf s.data.reverse

/-- `Map.get` (preceded by `Map.has`) on the handler map. -/
def getHandler : List (Int × Handler) → Int → Option Handler
  | [], _ => none
  | (k, v) :: rest, key => if k == key then some v else getHandler rest key

/-- `Map.delete` on the handler map (keys are unique in a `Map`). -/
def deleteKey : List (Int × Handler) → Int → List (Int × Handler)
  | [], _ => []
  | (k, v) :: rest, key => if k == key then rest else (k, v) :: deleteKey rest key

/-- `Map.set` on the handler map: replace in place if the key exists,
otherwise append. -/
def setKey (key : Int) (v : Handler) : List (Int × Handler) → List (Int × Handler)
  | [] => [(key, v)]
  | (k, w) :: rest => if k == key then (key, v) :: rest else (k, w) :: setKey key v rest

/-- The response callback that `Client.request` registers for each id:
`response.error` truthy (an object, hence `some`) rejects with
`Request failed: <message> (<code>)`; otherwise it resolves with
`response.result`. -/
def requestCallback : Handler := fun response =>
  match response.error with
  | some e =>
      HandlerOutcome.reject ("Request failed: " ++ e.message ++ " (" ++ toString e.code ++ ")")
  | none => HandlerOutcome.resolve response.result

/-- `Client.request(method, params)`: rejects when `serverProcess` is null;
otherwise takes `id = nextRequestId++`, stores `requestCallback` under `id`,
and writes the request frame.  Returns the assigned id (the promise is
completed later by `handleServerOutput`). -/
def request (st : ClientState) (method : String) (params : Json) :
    ClientState × List Action × Except String Int :=
  match st.serverProcess with
  | none => (st, [], Except.error "Not connected to a server")
  | some _ =>
      let id := st.nextRequestId
      let req : JsonRpcRequest := ⟨"2.0", id, method, params⟩
      ({ st with
          nextRequestId := st.nextRequestId + 1,
          responseHandlers := setKey id requestCallback st.responseHandlers },
        [Action.write (Frame.request req)], Except.ok id)

/-- `Client.notification(method, params)`: when `serverProcess` is null it
only logs and returns (no write, no exception); otherwise it writes the
notification frame. -/
def notification (st : ClientState) (method : String) (params : Json) : List Action :=
  match st.serverProcess with
  | none => []
  | some _ => [Action.write (Frame.notification ⟨"2.0", method, some params⟩)]

/-- `Client.handleServerOutput(data)`: trims the chunk, and only a chunk
that (after trimming) starts with `{` and ends with `}` is given to
`JSON.parse`; a parse exception is caught and logged.  A parsed response
is dispatched only when `response.id` is truthy (present and nonzero) and
the handler map has that id; then the callback is invoked and the entry
deleted.  Returns the new state and the invocations performed. -/
def handleServerOutput (parse : String → Option JsonRpcResponse) (st : ClientState)
    (data : String) : ClientState × List Action :=
  let output := jsTrim data
  if jsStartsWith output "\x7b" && jsEndsWith output "\x7d" then
    match parse output with
    | some response =>
        match response.id with
        | some rid =>
            if rid != 0 then
              match getHandler st.responseHandlers rid with
              | some callback =>
                  ({ st with responseHandlers := deleteKey st.responseHandlers rid },
                    [Action.invoke rid (callback response)])
              | none => (st, [])
            else (st, [])
        | none => (st, [])
    | none => (st, [])
  else (st, [])

/-- Feeding several stdout chunks in order, accumulating invocations. -/
def processChunks (parse : String → Option JsonRpcResponse) (st : ClientState)
    (chunks : List String) : ClientState × List Action :=
  chunks.foldl
    (fun acc chunk =>
      let r := handleServerOutput parse acc.1 chunk
      (r.1, acc.2 ++ r.2))
    (st, [])

/-- The handler `connect` installs for the subprocess `close` event: it
logs, sets `isConnected = false` and `serverProcess = null`.  Nothing else
happens — in particular `_responseHandlers` is not touched and no stored
continuation is invoked. -/
def onClose (st : ClientState) : ClientState × List Action :=
  ({ st with isConnected := false, serverProcess := none }, [])

/-- The `initialize` request parameters from `Client.initialize`. -/
def initParams : Json :=
  Json.obj
    [("protocolVersion", Json.str "2024-11-05"),
     ("capabilities",
       Json.obj
         [("roots", Json.obj [("listChanged", Json.bool true)]),
          ("sampling", Json.obj [])]),
     ("clientInfo",
       Json.obj [("name", Json.str "MCPStudyClient"), ("version", Json.str "1.0.0")])]

/-- `Client.connect(serverProcess)` up to its first suspension: the
`isConnected` guard (and only that guard), storing the process handle,
attaching the stream handlers, then `initialize` sending the `initialize`
request.  `isConnected` is still false at this point — it is only set
after `initialize` resolves. -/
def connectStart (st : ClientState) (proc : Nat) :
    ClientState × List Action × Except String Unit :=
  if st.isConnected then
    (st, [], Except.error "Client is already connected to a server")
  else
    let st1 := { st with serverProcess := some proc }
    let r := request st1 "initialize" initParams
    (r.1, r.2.1, r.2.2.map fun _ => ())

/-- The resumption of `connect`/`initialize` when the stored callback for
the `initialize` request fires with `outcome`: on rejection the error
propagates out of `connect` and no state changes; on resolution the
`notifications/initialized` notification (default `{}` params) is sent and
then `connect` sets `isConnected = true`. -/
def connectFinish (st : ClientState) (outcome : HandlerOutcome) :
    ClientState × List Action × Except String Unit :=
  match outcome with
  | HandlerOutcome.reject msg => (st, [], Except.error msg)
  | HandlerOutcome.resolve _ =>
      ({ st with isConnected := true },
        notification st "notifications/initialized" (Json.obj []), Except.ok ())

/-- `Client.listTools()` up to its suspension: rejects immediately when
`isConnected` is false, otherwise issues a `tools/list` request with `{}`
params. -/
def listTools (st : ClientState) : ClientState × List Action × Except String Int :=
  if st.isConnected then request st "tools/list" (Json.obj [])
  else (st, [], Except.error "Not connected to a server")

/-- `Client.disconnect()`: logs, sets `isConnected = false` and drops the
process reference.  The comment in the source is explicit that the process
is externally managed and is not killed; the handler map is untouched. -/
def disconnect (st : ClientState) : ClientState × List Action :=
  ({ st with isConnected := false, serverProcess := none }, [])

/-- Issue a sequence of requests (recording the ids the session assigns);
failed issues (no server process) assign no id. -/
def issueAll (st : ClientState) : List String → ClientState × List Int
  | [] => (st, [])
  | m :: ms =>
      let r := request st m (Json.obj [])
      match r.2.2 with
      | Except.ok id =>
          let rest := issueAll r.1 ms
          (rest.1, id :: rest.2)
      | Except.error _ => issueAll r.1 ms

/-- The registry invariant: the handler map has no duplicate keys, and
every key is below the next id to be assigned. -/
def RegistryInv (st : ClientState) : Prop :=
  (st.responseHandlers.map Prod.fst).Nodup ∧
    ∀ k ∈ st.responseHandlers.map Prod.fst, k < st.nextRequestId

/-! Concrete states and parse oracles used by witnesses and counterexamples. -/

/-- A session in the Ready state (handshake complete, no calls in flight). -/
def readyState : ClientState :=
  { serverProcess := some 7, nextRequestId := 2, responseHandlers := [], isConnected := true }

/-- A session in the Handshaking state: the state produced by `connectStart`
from a fresh client — `initialize` sent (id 1), its callback pending,
`isConnected` still false. -/
def handshakingState : ClientState := (connectStart initialClient 7).1

/-- A Ready session with two application calls (ids 2 and 3) in flight. -/
def twoPendingState : ClientState :=
  { serverProcess := some 7, nextRequestId := 4,
    responseHandlers := [(2, requestCallback), (3, requestCallback)], isConnected := true }

/-- A Ready session holding a continuation registered under id 0 (a state
the session itself never creates, since assigned ids start at 1). -/
def zeroKeyState : ClientState :=
  { serverProcess := some 7, nextRequestId := 5,
    responseHandlers := [(0, requestCallback)], isConnected := true }

/-- A parse oracle returning a response whose id (99) matches no pending call. -/
def parseUnsolicited : String → Option JsonRpcResponse :=
  fun _ => some ⟨"2.0", some 99, some Json.null, none⟩

/-- A parse oracle returning a response with id 0. -/
def parseZeroId : String → Option JsonRpcResponse :=
  fun _ => some ⟨"2.0", some 0, some Json.null, none⟩

/-- The whole example frame `{"jsonrpc":"2.0","id":1,"result":{}}` followed
by the newline, as one stdout chunk. -/
def fullChunk : String := "\x7b\"jsonrpc\":\"2.0\",\"id\":1,\"result\":\x7b\x7d\x7d\n"

/-- The first half of `fullChunk` when it is delivered split in two. -/
def chunkA : String := "\x7b\"jsonrpc\":\"2.0\",\"i"

/-- The second half of `fullChunk` when it is delivered split in two. -/
def chunkB : String := "d\":1,\"result\":\x7b\x7d\x7d\n"

/-- A parse oracle that decodes exactly the reassembled example frame. -/
def parseSplitFrame : String → Option JsonRpcResponse :=
  fun s =>
    if s = jsTrim fullChunk then some ⟨"2.0", some 1, some (Json.obj []), none⟩ else none

/-- A session with the single call id 1 outstanding (awaiting `fullChunk`). -/
def onePendingState : ClientState :=
  { serverProcess := some 7, nextRequestId := 2,
    responseHandlers := [(1, requestCallback)], isConnected := false }

end Mcp

namespace Mcp

/-- C7: a response whose id is not in the pending-call registry is dropped:
no continuation is invoked, no error raised, and the state (registry and
connection fields alike) is returned unchanged. -/
theorem handleServerOutput_unknown_id_dropped
    (parse : String → Option JsonRpcResponse) (st : ClientState) (data : String)
    (response : JsonRpcResponse) (rid : Int)
    (hp : parse (jsTrim data) = some response) (hid : response.id = some rid)
    (habsent : getHandler st.responseHandlers rid = none) :
    handleServerOutput parse st data = (st, []) := by
  unfold handleServerOutput
  by_cases hb : (jsStartsWith (jsTrim data) "\x7b" && jsEndsWith (jsTrim data) "\x7d") = true
  · simp only [hb, if_true, hp, hid, habsent]
    by_cases hz : (rid != 0) = true <;> simp [hz]
  · simp only [Bool.not_eq_true] at hb
    simp [hb]

/-- Witness for C7: a Ready session with calls 1 and 2 pending receives an
unsolicited response with id 99; it is dropped and the state is unchanged. -/
theorem handleServerOutput_unknown_id_dropped_witness :
    parseUnsolicited (jsTrim "\x7bx\x7d") = some ⟨"2.0", some 99, some Json.null, none⟩ ∧
      getHandler twoPendingState.responseHandlers 99 = none ∧
      handleServerOutput parseUnsolicited twoPendingState "\x7bx\x7d" = (twoPendingState, []) :=
  ⟨rfl, rfl,
    handleServerOutput_unknown_id_dropped parseUnsolicited twoPendingState "\x7bx\x7d"
      ⟨"2.0", some 99, some Json.null, none⟩ 99 rfl rfl rfl⟩

/-- C10: a parsed response whose id is 0 or absent triggers no registry
lookup and no continuation — the JavaScript truthiness guard `response.id`
skips dispatch — even when a continuation is registered under key 0; and
session-assigned ids start at 1. -/
theorem handleServerOutput_zero_or_absent_id_ignored
    (parse : String → Option JsonRpcResponse) (st : ClientState) (data : String)
    (response : JsonRpcResponse)
    (hp : parse (jsTrim data) = some response)
    (hid : response.id = some 0 ∨ response.id = none) :
    handleServerOutput parse st data = (st, []) ∧ initialClient.nextRequestId = 1 := by
  refine ⟨?_, rfl⟩
  unfold handleServerOutput
  by_cases hb : (jsStartsWith (jsTrim data) "\x7b" && jsEndsWith (jsTrim data) "\x7d") = true
  · rcases hid with hid | hid <;> simp [hb, hp, hid]
  · simp only [Bool.not_eq_true] at hb
    simp [hb]

/-- Witness for C10: a response with id 0 reaches a session that does hold
a continuation under key 0; nothing is invoked and the state is unchanged. -/
theorem handleServerOutput_zero_or_absent_id_ignored_witness :
    parseZeroId (jsTrim "\x7by\x7d") = some ⟨"2.0", some 0, some Json.null, none⟩ ∧
      getHandler zeroKeyState.responseHandlers 0 = some requestCallback ∧
      (handleServerOutput parseZeroId zeroKeyState "\x7by\x7d" = (zeroKeyState, []) ∧
        initialClient.nextRequestId = 1) :=
  ⟨rfl, rfl,
    handleServerOutput_zero_or_absent_id_ignored parseZeroId zeroKeyState "\x7by\x7d"
      ⟨"2.0", some 0, some Json.null, none⟩ rfl (Or.inl rfl)⟩

/-- C8: `listTools` on a client that is not connected fails synchronously
with the state error, writes nothing, and returns the state unchanged
(same next id, same registry, same flags). -/
theorem listTools_not_connected
    (st : ClientState) (h : st.isConnected = false) :
    listTools st = (st, [], Except.error "Not connected to a server") := by
  simp [listTools, h]

/-- Witness for C8: `listTools` on a freshly constructed client (before any
`connect`) fails with the state error and changes nothing. -/
theorem listTools_not_connected_witness :
    initialClient.isConnected = false ∧
      listTools initialClient = (initialClient, [], Except.error "Not connected to a server") :=
  ⟨rfl, listTools_not_connected initialClient rfl⟩

/-- C9: `disconnect` only clears the connection flag and the process
reference: the registry and next id are untouched, no continuation is
invoked (no actions at all), and in particular no kill is issued. -/
theorem disconnect_frame_effect (st : ClientState) :
    (disconnect st).1.responseHandlers = st.responseHandlers ∧
      (disconnect st).1.nextRequestId = st.nextRequestId ∧
      (disconnect st).2 = [] ∧
      (∀ p : Nat, Action.kill p ∉ (disconnect st).2) ∧
      (disconnect st).1.isConnected = false ∧
      (disconnect st).1.serverProcess = none := by
  simp [disconnect]

/-- C5: when the `initialize` response carries an error object, the stored
callback rejects with a message containing the error's code and message,
`connect` fails with that error, the state is unchanged (so a session that
was Handshaking never becomes Ready), and an application call afterwards
is still refused. -/
theorem initialize_error_fails_connect
    (st : ClientState) (response : JsonRpcResponse) (e : JsonRpcError)
    (herr : response.error = some e) (hhs : st.isConnected = false) :
    connectFinish st (requestCallback response) =
        (st, [],
          Except.error ("Request failed: " ++ e.message ++ " (" ++ toString e.code ++ ")")) ∧
      (connectFinish st (requestCallback response)).1.isConnected = false ∧
      (listTools (connectFinish st (requestCallback response)).1).2.2 =
        Except.error "Not connected to a server" := by
  have hcb : requestCallback response =
      HandlerOutcome.reject ("Request failed: " ++ e.message ++ " (" ++ toString e.code ++ ")") := by
    simp [requestCallback, herr]
  refine ⟨by simp [connectFinish, hcb], by simp [connectFinish, hcb, hhs], ?_⟩
  simp [connectFinish, hcb, listTools, hhs]

/-- Witness for C5: `initialize` (sent from a fresh client) answered with
`error = {code := -32000, message := "boom"}` makes `connect` fail with
`Request failed: boom (-32000)` and the session stays disconnected. -/
theorem initialize_error_fails_connect_witness :
    (⟨"2.0", some 1, none, some ⟨-32000, "boom", none⟩⟩ : JsonRpcResponse).error =
        some ⟨-32000, "boom", none⟩ ∧
      handshakingState.isConnected = false ∧
      (connectFinish handshakingState
            (requestCallback ⟨"2.0", some 1, none, some ⟨-32000, "boom", none⟩⟩) =
          (handshakingState, [], Except.error "Request failed: boom (-32000)") ∧
        (connectFinish handshakingState
              (requestCallback ⟨"2.0", some 1, none, some ⟨-32000, "boom", none⟩⟩)).1.isConnected =
          false ∧
        (listTools (connectFinish handshakingState
              (requestCallback ⟨"2.0", some 1, none,
                some ⟨-32000, "boom", none⟩⟩)).1).2.2 =
          Except.error "Not connected to a server") :=
  ⟨rfl, rfl,
    initialize_error_fails_connect handshakingState
      ⟨"2.0", some 1, none, some ⟨-32000, "boom", none⟩⟩ ⟨-32000, "boom", none⟩ rfl rfl⟩

/-- C6: on an `initialize` response with no error member, the resumption
sends exactly the `notifications/initialized` notification frame (which by
construction carries no id) and sets `isConnected := true`, regardless of
what the result value contains; afterwards `tools/list` is accepted. -/
theorem initialize_success_reaches_ready
    (st : ClientState) (response : JsonRpcResponse) (p : Nat)
    (hok : response.error = none) (hp : st.serverProcess = some p) :
    connectFinish st (requestCallback response) =
        ({ st with isConnected := true },
          [Action.write (Frame.notification ⟨"2.0", "notifications/initialized",
            some (Json.obj [])⟩)],
          Except.ok ()) ∧
      (listTools (connectFinish st (requestCallback response)).1).2.2 =
        Except.ok st.nextRequestId := by
  have hcb : requestCallback response = HandlerOutcome.resolve response.result := by
    simp [requestCallback, hok]
  constructor
  · simp [connectFinish, hcb, notification, hp]
  · simp [connectFinish, hcb, listTools, request, hp]

/-- Witness for C6: the spec's handshake-success response (protocol
version, capabilities and server identity in the result) delivered to the
Handshaking session yields the initialized notification, Ready, and a
permitted `tools/list` assigned id 2. -/
theorem initialize_success_reaches_ready_witness :
    (⟨"2.0", some 1,
        some (Json.obj
          [("protocolVersion", Json.str "2024-11-05"),
           ("capabilities", Json.obj []),
           ("serverInfo", Json.obj [("name", Json.str "x"), ("version", Json.str "1")])]),
        none⟩ : JsonRpcResponse).error = none ∧
      handshakingState.serverProcess = some 7 ∧
      (connectFinish handshakingState
            (requestCallback ⟨"2.0", some 1,
              some (Json.obj
                [("protocolVersion", Json.str "2024-11-05"),
                 ("capabilities", Json.obj []),
                 ("serverInfo", Json.obj [("name", Json.str "x"), ("version", Json.str "1")])]),
              none⟩) =
          ({ handshakingState with isConnected := true },
            [Action.write (Frame.notification ⟨"2.0", "notifications/initialized",
              some (Json.obj [])⟩)],
            Except.ok ()) ∧
        (listTools (connectFinish handshakingState
              (requestCallback ⟨"2.0", some 1,
                some (Json.obj
                  [("protocolVersion", Json.str "2024-11-05"),
                   ("capabilities", Json.obj []),
                   ("serverInfo", Json.obj [("name", Json.str "x"),
                     ("version", Json.str "1")])]),
                none⟩)).1).2.2 =
          Except.ok handshakingState.nextRequestId) :=
  ⟨rfl, rfl,
    initialize_success_reaches_ready handshakingState
      ⟨"2.0", some 1,
        some (Json.obj
          [("protocolVersion", Json.str "2024-11-05"),
           ("capabilities", Json.obj []),
           ("serverInfo", Json.obj [("name", Json.str "x"), ("version", Json.str "1")])]),
        none⟩ 7 rfl rfl⟩

/-- Counterexample to C1: with calls 2 and 3 pending, the `close` handler
invokes no continuation at all (no `TransportError` rejections) and leaves
both entries in the registry — the registry is not emptied. -/
theorem onClose_does_not_drain :
    (onClose twoPendingState).2 = [] ∧
      (onClose twoPendingState).1.responseHandlers.map Prod.fst = [2, 3] ∧
      (onClose twoPendingState).1.responseHandlers ≠ [] := by
  refine ⟨rfl, rfl, ?_⟩
  simp [onClose, twoPendingState]

/-- C1 as amended: when the subprocess exits, the close handler only clears
the connected flag and drops the process reference; no pending continuation
is invoked and the registry is left exactly as it was, so pending calls at
the moment of close stay unresolved. -/
theorem onClose_frame_effect (st : ClientState) :
    (onClose st).2 = [] ∧
      (onClose st).1.responseHandlers = st.responseHandlers ∧
      (onClose st).1.nextRequestId = st.nextRequestId ∧
      (onClose st).1.isConnected = false ∧
      (onClose st).1.serverProcess = none := by
  simp [onClose]

/-- Counterexample to C2: the example frame delivered split across two
chunks produces zero dispatched messages (each half fails the brace
heuristic and is discarded), although the same frame delivered whole in
one chunk is decoded and dispatched to the pending call. -/
theorem split_frame_yields_zero_messages :
    processChunks parseSplitFrame onePendingState [chunkA, chunkB] = (onePendingState, []) ∧
      handleServerOutput parseSplitFrame onePendingState fullChunk =
        ({ onePendingState with responseHandlers := [] },
          [Action.invoke 1 (HandlerOutcome.resolve (some (Json.obj [])))]) :=
  ⟨rfl, rfl⟩

/-- C2 as amended: the inbound path keeps no buffer and treats each read
as one message candidate; a frame split across two chunks, neither of
which alone passes the brace heuristic, yields zero decoded messages and
leaves the state unchanged. -/
theorem split_frame_dropped
    (parse : String → Option JsonRpcResponse) (st : ClientState) (c1 c2 : String)
    (h1 : (jsStartsWith (jsTrim c1) "\x7b" && jsEndsWith (jsTrim c1) "\x7d") = false)
    (h2 : (jsStartsWith (jsTrim c2) "\x7b" && jsEndsWith (jsTrim c2) "\x7d") = false) :
    processChunks parse st [c1, c2] = (st, []) := by
  have e1 : handleServerOutput parse st c1 = (st, []) := by
    unfold handleServerOutput
    simp [h1]
  have e2 : handleServerOutput parse st c2 = (st, []) := by
    unfold handleServerOutput
    simp [h2]
  simp [processChunks, e1, e2]

/-- Witness for the amended C2: the two halves of the example frame both
fail the brace heuristic, and feeding them in order dispatches nothing. -/
theorem split_frame_dropped_witness :
    (jsStartsWith (jsTrim chunkA) "\x7b" && jsEndsWith (jsTrim chunkA) "\x7d") = false ∧
      (jsStartsWith (jsTrim chunkB) "\x7b" && jsEndsWith (jsTrim chunkB) "\x7d") = false ∧
      processChunks parseSplitFrame onePendingState [chunkA, chunkB] = (onePendingState, []) :=
  ⟨rfl, rfl, split_frame_dropped parseSplitFrame onePendingState chunkA chunkB rfl rfl⟩

/-- Counterexample to C3: from the Handshaking state (initialize id 1 sent,
unanswered, `isConnected` still false) a second `connect` is not rejected:
it succeeds, replaces the process handle, and sends a second `initialize`
request (id 2), leaving two handshake continuations pending. -/
theorem connect_during_handshake_not_rejected :
    handshakingState.isConnected = false ∧
      connectStart handshakingState 8 =
        ({ serverProcess := some 8, nextRequestId := 3,
            responseHandlers := [(1, requestCallback), (2, requestCallback)],
            isConnected := false },
          [Action.write (Frame.request ⟨"2.0", 2, "initialize", initParams⟩)],
          Except.ok ()) :=
  ⟨rfl, rfl⟩

/-- C3 as amended: `connect` while already Ready (`isConnected`) is
rejected with the invalid-state error, changes nothing and sends no bytes;
but while the session is merely Handshaking (`isConnected` still false) a
second `connect` is not rejected — it succeeds and sends another
`initialize` request. -/
theorem connect_reentrancy (st : ClientState) (p : Nat) :
    (st.isConnected = true →
        connectStart st p = (st, [], Except.error "Client is already connected to a server")) ∧
      (st.isConnected = false →
        (connectStart st p).2.2 = Except.ok () ∧
          (connectStart st p).2.1 =
            [Action.write (Frame.request ⟨"2.0", st.nextRequestId, "initialize", initParams⟩)]) := by
  constructor
  · intro h
    simp [connectStart, h]
  · intro h
    simp [connectStart, h, request, Except.map]

/-- Witness for the amended C3: a Ready session rejects a second `connect`
with no writes, while the Handshaking session accepts one and writes a
second `initialize` request. -/
theorem connect_reentrancy_witness :
    readyState.isConnected = true ∧
      connectStart readyState 9 =
        (readyState, [], Except.error "Client is already connected to a server") ∧
      handshakingState.isConnected = false ∧
      ((connectStart handshakingState 9).2.2 = Except.ok () ∧
        (connectStart handshakingState 9).2.1 =
          [Action.write (Frame.request
            ⟨"2.0", handshakingState.nextRequestId, "initialize", initParams⟩)]) :=
  ⟨rfl, (connect_reentrancy readyState 9).1 rfl, rfl,
    (connect_reentrancy handshakingState 9).2 rfl⟩

/-- Setting a key that is not yet in the map appends it (`Map.set`). -/
theorem setKey_map_fst (key : Int) (v : Handler) (hs : List (Int × Handler))
    (h : key ∉ hs.map Prod.fst) :
    (setKey key v hs).map Prod.fst = hs.map Prod.fst ++ [key] := by
  induction hs with
  | nil => rfl
  | cons q rest ih =>
      obtain ⟨k, w⟩ := q
      simp only [List.map_cons, List.mem_cons, not_or] at h
      have hk : (k == key) = false := beq_eq_false_iff_ne.mpr (Ne.symm h.1)
      simp [setKey, hk, ih h.2]

/-- One `request` step from a connected state with a valid registry:
the assigned id is the current `nextRequestId`, the counter advances by
one, the process handle is kept, and the registry invariant is preserved. -/
theorem request_step (st : ClientState) (p : Nat) (m : String) (params : Json)
    (hp : st.serverProcess = some p) (hinv : RegistryInv st) :
    (request st m params).2.2 = Except.ok st.nextRequestId ∧
      (request st m params).1.serverProcess = some p ∧
      (request st m params).1.nextRequestId = st.nextRequestId + 1 ∧
      RegistryInv (request st m params).1 := by
  have hnot : st.nextRequestId ∉ st.responseHandlers.map Prod.fst := fun hmem =>
    absurd (hinv.2 _ hmem) (lt_irrefl _)
  simp only [request, hp]
  refine ⟨by trivial, by trivial, by trivial, ?_, ?_⟩
  · rw [setKey_map_fst _ _ _ hnot]
    simp only [List.nodup_append, List.nodup_singleton, List.disjoint_singleton]
    exact ⟨hinv.1, trivial, hnot⟩
  · intro k hk
    rw [setKey_map_fst _ _ _ hnot] at hk
    rcases List.mem_append.mp hk with hk | hk
    · exact lt_trans (hinv.2 k hk) (lt_add_one _)
    · rw [List.mem_singleton] at hk
      rw [hk]
      exact lt_add_one _

/-- Issuing any sequence of requests from a connected state with a valid
registry: every assigned id is at least the starting counter, the assigned
ids are pairwise strictly increasing, the registry invariant holds
afterwards, the process handle is kept and the counter never decreases. -/
theorem issueAll_spec (ms : List String) :
    ∀ st : ClientState, ∀ p : Nat, st.serverProcess = some p → RegistryInv st →
      (∀ i ∈ (issueAll st ms).2, st.nextRequestId ≤ i) ∧
        (issueAll st ms).2.Pairwise (· < ·) ∧
        RegistryInv (issueAll st ms).1 ∧
        (issueAll st ms).1.serverProcess = some p ∧
        st.nextRequestId ≤ (issueAll st ms).1.nextRequestId := by
  induction ms with
  | nil =>
      intro st p hp hinv
      simp [issueAll, hinv, hp]
  | cons m ms ih =>
      intro st p hp hinv
      obtain ⟨hok, hproc, hnext, hinv'⟩ := request_step st p m (Json.obj []) hp hinv
      obtain ⟨h1, h2, h3, h4, h5⟩ := ih (request st m (Json.obj [])).1 p hproc hinv'
      have hlt : st.nextRequestId < (request st m (Json.obj [])).1.nextRequestId := by
        rw [hnext]
        exact lt_add_one _
      simp only [issueAll, hok]
      refine ⟨?_, ?_, h3, h4, le_trans (le_of_lt hlt) h5⟩
      · intro i hi
        rcases List.mem_cons.mp hi with hi | hi
        · exact le_of_eq hi.symm
        · exact le_trans (le_of_lt hlt) (h1 i hi)
      · exact List.Pairwise.cons (fun j hj => lt_of_lt_of_le hlt (h1 j hj)) h2

/-- C4: along any sequence of requests issued from a connected session
whose registry satisfies the invariant, the assigned identifiers are
pairwise strictly increasing (hence never reused), and afterwards the
registry still holds at most one continuation per identifier (its keys
are duplicate-free) with all keys below the next id to be assigned. -/
theorem request_ids_strictly_increasing (st : ClientState) (ms : List String) (p : Nat)
    (hp : st.serverProcess = some p) (hinv : RegistryInv st) :
    (issueAll st ms).2.Pairwise (· < ·) ∧
      (issueAll st ms).2.Nodup ∧
      RegistryInv (issueAll st ms).1 := by
  obtain ⟨-, h2, h3, -, -⟩ := issueAll_spec ms st p hp hinv
  exact ⟨h2, h2.imp (fun h => ne_of_lt h), h3⟩

/-- Witness for C4: three requests issued from the Ready session receive
ids 2, 3, 4 — strictly increasing, none reused, registry keys distinct. -/
theorem request_ids_strictly_increasing_witness :
    readyState.serverProcess = some 7 ∧ RegistryInv readyState ∧
      ((issueAll readyState ["tools/list", "tools/list", "tools/list"]).2.Pairwise (· < ·) ∧
        (issueAll readyState ["tools/list", "tools/list", "tools/list"]).2.Nodup ∧
        RegistryInv (issueAll readyState ["tools/list", "tools/list", "tools/list"]).1) := by
  have hinv : RegistryInv readyState := by
    constructor <;> simp [readyState, RegistryInv]
  exact ⟨rfl, hinv,
    request_ids_strictly_increasing readyState ["tools/list", "tools/list", "tools/list"] 7
      rfl hinv⟩

end Mcp
